import Mathlib

/-!
Verification development for the `dax-tui` terminal front-end
(`src/crates/dax-tui/src/main.rs`).

The program folds line-delimited JSON control messages into a view-model
(`AppState`) and renders it each tick, while capturing keyboard input and
emitting user submissions as JSON lines on standard output.  Below, the data
model, the view-model reducer (the `match` over `TuiMessage`/`StreamEvent` in
`main`), the keyboard handler, the queue-drain loop, and the message decoder
are embedded as executable Lean functions, and the specified properties are
proved about them.  Timestamps (`SystemTime::now`) are passed explicitly as a
`now : Nat` parameter; terminal drawing (the `ui` function) is pure output and
is not modelled.
-/

namespace DaxTui

/-- Rust `struct ToolState` (`main.rs:135-142`): one tool invocation in the
current turn's log. `status` is one of the strings `"running"`, `"success"`,
`"error"`. -/
structure ToolState where
  name : String
  id : String
  status : String
  output : Option String
  elapsed_ms : Option Nat
deriving Repr, DecidableEq

/-- Rust `struct Message` (`main.rs:127-133`): a completed transcript entry. -/
structure Message where
  role : String
  content : String
  timestamp : Nat
  tools : List ToolState
deriving Repr, DecidableEq

/-- Rust `struct AppState` (`main.rs:110-125`), minus the render-only
`scroll_state : ScrollbarState` (a ratatui widget state never read by the
reducer or the key handler). -/
structure AppState where
  messages : List Message
  current_stream : String
  stream_state : String
  current_tool : Option String
  tools : List ToolState
  context_files : List String
  context_scope : List String
  input : String
  chat_scroll : Nat
  provider : Option String
  model : Option String
  elapsed_ms : Option Nat
deriving Repr, DecidableEq

/-- The state at startup (`AppState::default()` followed by
`state.stream_state = "done"` at `main.rs:163-164`). -/
def initAppState : AppState :=
  { messages := []
    current_stream := ""
    stream_state := "done"
    current_tool := none
    tools := []
    context_files := []
    context_scope := []
    input := ""
    chat_scroll := 0
    provider := none
    model := none
    elapsed_ms := none }

/-- Rust `struct Warning` (`main.rs:104-108`). -/
structure Warning where
  code : String
  subject : String
deriving Repr, DecidableEq

/-- Rust `enum StreamEvent` (`main.rs:68-102`). -/
inductive StreamEvent where
  | meta (provider : Option String) (model : Option String)
  | state (s : String)
  | textDelta (text : String)
  | toolCall (name : Option String) (id : Option String)
  | toolResult (tool_id : Option String) (success : Option Bool)
      (output : Option String) (elapsed_ms : Option Nat)
  | gate (id : Option String) (blocked : Option Bool)
      (warnings : Option (List Warning))
  | complete
  | error (message : Option String)
deriving Repr, DecidableEq

/-- Rust `enum TuiMessage` (`main.rs:50-66`): the five control-message kinds. -/
inductive TuiMessage where
  | dispatch (event : StreamEvent)
  | addUserMessage (content : String)
  | setContext (files : List String) (scope : List String)
  | updateState (state : String)
  | destroy
deriving Repr, DecidableEq

/-- The `ToolResult` arm's loop (`main.rs:215-226`): walk `tools`, and at the
FIRST entry whose `id` equals the event's id (the loop `break`s there),
overwrite `status` from `success`, and `output`/`elapsed_ms` from the event.
Note the Rust code matches on `id` only — it does not require the entry's
status to be `"running"`. -/
def resolveTool (key : String) (success : Option Bool) (output : Option String)
    (elapsed : Option Nat) : List ToolState → List ToolState
  | [] => []
  | t :: ts =>
    if t.id = key then
      { t with
        status := if success.getD false then "success" else "error"
        output := output
        elapsed_ms := elapsed } :: ts
    else
      t :: resolveTool key success output elapsed ts

/-- The `Dispatch` arm of the reducer (`main.rs:193-257`): apply one
`StreamEvent` to the view-model. `now` stands for
`SystemTime::now()...as_millis()` at `main.rs:234-238`. -/
def applyEvent (now : Nat) (st : AppState) : StreamEvent → AppState
  | .state s => { st with stream_state := s }
  | .textDelta text => { st with current_stream := st.current_stream ++ text }
  | .toolCall name id =>
    match name, id with
    | some n, some i =>
      { st with
        current_tool := some n
        tools := st.tools ++ [⟨n, i, "running", none, none⟩] }
    | _, _ => { st with current_tool := name }
  | .toolResult tool_id success output elapsed_ms =>
    { st with
      current_tool := none
      tools := resolveTool (tool_id.getD "") success output elapsed_ms st.tools }
  | .complete =>
    if !st.current_stream.isEmpty || !st.tools.isEmpty then
      let msgs := st.messages ++ [⟨"assistant", st.current_stream, now, st.tools⟩]
      { st with
        messages := msgs
        current_stream := ""
        tools := []
        stream_state := "idle"
        chat_scroll := msgs.length - 1 }
    else st
  | .meta provider model => { st with provider := provider, model := model }
  | .error _ => { st with stream_state := "error" }
  | .gate _ _ _ => { st with stream_state := "waiting" }

/-- The reducer over a whole control message (`main.rs:192-288`).  `destroy`
performs terminal teardown and returns from `main`; as a state transition it
leaves the view-model as is (the exit itself is modelled by `drainBatch`). -/
def applyMsg (now : Nat) (st : AppState) : TuiMessage → AppState
  | .dispatch e => applyEvent now st e
  | .addUserMessage content =>
    { st with
      messages := st.messages ++ [⟨"user", content, now, []⟩]
      current_stream := ""
      stream_state := "thinking" }
  | .setContext files scope =>
    { st with context_files := files, context_scope := scope }
  | .updateState s => { st with stream_state := s }
  | .destroy => st

/-- Whether a control message is the `Destroy` (terminate) message. -/
def isDestroy : TuiMessage → Bool
  | .destroy => true
  | _ => false

/-- The per-tick drain loop (`main.rs:190-290`): apply queued messages in
order; on `Destroy` the function returns immediately (`main.rs:278-287`),
so nothing after it is applied. -/
def drainBatch (now : Nat) (st : AppState) : List TuiMessage → AppState
  | [] => st
  | m :: ms =>
    if isDestroy m then st
    else drainBatch now (applyMsg now st m) ms

/-- Keyboard actions recognized by the input handler (`main.rs:295-351`).
`char c` stands for `KeyCode::Char(c)` without the CONTROL modifier (the
ctrl-c arm performs the same teardown as `Destroy` and is covered by
`drainBatch`); `other` stands for the `_ => {}` arm. -/
inductive KeyAction where
  | enter
  | char (c : Char)
  | backspace
  | up
  | down
  | pageUp
  | pageDown
  | home
  | endKey
  | other
deriving Repr, DecidableEq

/-- serde_json's escaping of one character inside a JSON string:
`"` and `\` get a backslash, the five short control escapes are used where
they exist, remaining control characters become `\u00xx` (lowercase hex);
everything else passes through. -/
def escapeJsonChar (c : Char) : String :=
  if c = '"' then "\\\""
  else if c = '\\' then "\\\\"
  else if c.toNat < 0x20 then
    if c = '\x08' then "\\b"
    else if c = '\t' then "\\t"
    else if c = '\n' then "\\n"
    else if c = '\x0c' then "\\f"
    else if c = '\r' then "\\r"
    else
      let lo := c.toNat % 16
      let hi := c.toNat / 16
      let hexDigit := fun (n : Nat) =>
        if n < 10 then Char.ofNat (48 + n) else Char.ofNat (87 + n)
      "\\u00" ++ String.mk [hexDigit hi, hexDigit lo]
  else String.singleton c

/-- serde_json's serialization of a string value, quotes included. -/
def escapeJsonString (s : String) : String :=
  "\"" ++ String.join (s.data.map escapeJsonChar) ++ "\""

/-- Modelled from the spec: the line the Enter handler prints
(`main.rs:313-317`, `serde_json::json!` then `println!`).  The Cargo manifest,
which fixes whether serde_json keeps insertion order of object keys
(`preserve_order`), is not under `src/`; the field order here follows the
spec's outbound protocol line `\x7b"type":"input","content":"..."\x7d`. -/
def emitInputLine (content : String) : String :=
  "\x7b\"type\":\"input\",\"content\":" ++ escapeJsonString content ++ "\x7d"

/-- The key-event handler (`main.rs:295-351`): returns the updated state and
the list of lines printed to standard output while handling the key. -/
def handleKey (st : AppState) : KeyAction → AppState × List String
  | .enter =>
    if !st.input.isEmpty then
      ({ st with input := "" }, [emitInputLine st.input])
    else (st, [])
  | .char c => ({ st with input := st.input.push c }, [])
  | .backspace => ({ st with input := st.input.dropRight 1 }, [])
  | .up =>
    if st.chat_scroll > 0 then
      ({ st with chat_scroll := st.chat_scroll - 1 }, [])
    else (st, [])
  | .down =>
    if st.chat_scroll < st.messages.length - 1 then
      ({ st with chat_scroll := st.chat_scroll + 1 }, [])
    else (st, [])
  | .pageUp => ({ st with chat_scroll := st.chat_scroll - 10 }, [])
  | .pageDown =>
    ({ st with chat_scroll := min (st.chat_scroll + 10) (st.messages.length - 1) }, [])
  | .home => ({ st with chat_scroll := 0 }, [])
  | .endKey => ({ st with chat_scroll := st.messages.length - 1 }, [])
  | .other => (st, [])

/-- The scroll-navigation subset of the key actions. -/
def isScrollKey : KeyAction → Bool
  | .up => true
  | .down => true
  | .pageUp => true
  | .pageDown => true
  | .home => true
  | .endKey => true
  | _ => false

/-- JSON values, as produced by serde_json's grammar.  Numbers are modelled as
integers: the only numeric field in the protocol is `elapsed_ms : Option<u64>`,
whose deserialization accepts exactly non-negative integers below `2^64`. -/
inductive Json where
  | null
  | bool (b : Bool)
  | num (n : Int)
  | str (s : String)
  | arr (xs : List Json)
  | obj (fields : List (String × Json))
deriving Repr

/-- Look up a field of a JSON object by key (first occurrence). -/
def getField : List (String × Json) → String → Option Json
  | [], _ => none
  | (k, v) :: rest, key => if k = key then some v else getField rest key

/-- Deserialize an `Option<String>` struct field: a missing field or an
explicit `null` is `None`; anything other than a string fails. -/
def decodeOptString (fields : List (String × Json)) (key : String) :
    Option (Option String) :=
  match getField fields key with
  | none => some none
  | some .null => some none
  | some (.str s) => some (some s)
  | some _ => none

/-- Deserialize an `Option<bool>` struct field. -/
def decodeOptBool (fields : List (String × Json)) (key : String) :
    Option (Option Bool) :=
  match getField fields key with
  | none => some none
  | some .null => some none
  | some (.bool b) => some (some b)
  | some _ => none

/-- Deserialize an `Option<u64>` struct field: the number must be a
non-negative integer below `2^64`. -/
def decodeOptU64 (fields : List (String × Json)) (key : String) :
    Option (Option Nat) :=
  match getField fields key with
  | none => some none
  | some .null => some none
  | some (.num n) =>
    if 0 ≤ n ∧ n < (2 : Int) ^ 64 then some (some n.toNat) else none
  | some _ => none

/-- Deserialize a required `String` struct field. -/
def decodeReqString (fields : List (String × Json)) (key : String) :
    Option String :=
  match getField fields key with
  | some (.str s) => some s
  | _ => none

/-- Deserialize a JSON array of strings (`Vec<String>`). -/
def decodeStringList : List Json → Option (List String)
  | [] => some []
  | .str s :: rest => (decodeStringList rest).map (fun tl => s :: tl)
  | _ => none

/-- Deserialize a required `Vec<String>` struct field. -/
def decodeReqStringList (fields : List (String × Json)) (key : String) :
    Option (List String) :=
  match getField fields key with
  | some (.arr xs) => decodeStringList xs
  | _ => none

/-- Deserialize one `Warning` (`main.rs:104-108`): both fields required. -/
def decodeWarning : Json → Option Warning
  | .obj fields => do
    let c ← decodeReqString fields "code"
    let s ← decodeReqString fields "subject"
    some ⟨c, s⟩
  | _ => none

/-- Deserialize a list of `Warning`s. -/
def decodeWarningList : List Json → Option (List Warning)
  | [] => some []
  | j :: rest => do
    let w ← decodeWarning j
    let tl ← decodeWarningList rest
    some (w :: tl)

/-- Deserialize an `Option<Vec<Warning>>` struct field. -/
def decodeOptWarnings (fields : List (String × Json)) (key : String) :
    Option (Option (List Warning)) :=
  match getField fields key with
  | none => some none
  | some .null => some none
  | some (.arr xs) => (decodeWarningList xs).map some
  | some _ => none

/-- The adjacently-tagged `StreamEvent` deserializer (`main.rs:68-102`,
`#[serde(tag = "type", content = "data")]`): the event kind is under `"type"`
and the payload object under `"data"`; struct variants require a `"data"`
object, the unit variant `complete` does not. -/
def decodeStreamEvent : Json → Option StreamEvent
  | .obj fields =>
    match getField fields "type" with
    | some (.str tag) =>
      let dataObj : Option (List (String × Json)) :=
        match getField fields "data" with
        | some (.obj fs) => some fs
        | _ => none
      if tag = "meta" then do
        let d ← dataObj
        let p ← decodeOptString d "provider"
        let m ← decodeOptString d "model"
        some (.meta p m)
      else if tag = "state" then do
        let d ← dataObj
        let s ← decodeReqString d "state"
        some (.state s)
      else if tag = "text_delta" then do
        let d ← dataObj
        let t ← decodeReqString d "text"
        some (.textDelta t)
      else if tag = "tool_call" then do
        let d ← dataObj
        let n ← decodeOptString d "name"
        let i ← decodeOptString d "id"
        some (.toolCall n i)
      else if tag = "tool_result" then do
        let d ← dataObj
        let i ← decodeOptString d "tool_id"
        let s ← decodeOptBool d "success"
        let o ← decodeOptString d "output"
        let e ← decodeOptU64 d "elapsed_ms"
        some (.toolResult i s o e)
      else if tag = "gate" then do
        let d ← dataObj
        let i ← decodeOptString d "id"
        let b ← decodeOptBool d "blocked"
        let w ← decodeOptWarnings d "warnings"
        some (.gate i b w)
      else if tag = "complete" then some .complete
      else if tag = "error" then do
        let d ← dataObj
        let m ← decodeOptString d "message"
        some (.error m)
      else none
    | _ => none
  | _ => none

/-- The internally-tagged `TuiMessage` deserializer (`main.rs:50-66`,
`#[serde(tag = "type")]`): the message kind is the `"type"` field of the top
object, the remaining fields sit alongside it. -/
def decodeTuiMessage : Json → Option TuiMessage
  | .obj fields =>
    match getField fields "type" with
    | some (.str tag) =>
      if tag = "dispatch" then do
        let ev ← getField fields "event"
        let e ← decodeStreamEvent ev
        some (.dispatch e)
      else if tag = "addUserMessage" then do
        let c ← decodeReqString fields "content"
        some (.addUserMessage c)
      else if tag = "setContext" then do
        let fs ← decodeReqStringList fields "files"
        let sc ← decodeReqStringList fields "scope"
        some (.setContext fs sc)
      else if tag = "updateState" then do
        let s ← decodeReqString fields "state"
        some (.updateState s)
      else if tag = "destroy" then some .destroy
      else none
    | _ => none
  | _ => none

/-- Processing of one queued line after JSON parsing (`main.rs:190-191`):
`if let Ok(tui_msg) = serde_json::from_str(...)` — a line that fails to decode
is skipped and the loop moves on; nothing else happens. -/
def processLineValue (now : Nat) (st : AppState) (j : Json) : AppState :=
  match decodeTuiMessage j with
  | some m => applyMsg now st m
  | none => st

/-! ### Helper lemmas -/

/-- `resolveTool` on a log whose entries all miss the key is the identity. -/
theorem resolveTool_no_match (key : String) (suc : Option Bool)
    (out : Option String) (el : Option Nat) (ts : List ToolState)
    (h : ∀ u ∈ ts, u.id ≠ key) :
    resolveTool key suc out el ts = ts := by
  induction ts with
  | nil => rfl
  | cons u us ih =>
    have hu : u.id ≠ key := h u (List.mem_cons_self ..)
    simp only [resolveTool, if_neg hu]
    rw [ih (fun x hx => h x (List.mem_cons_of_mem _ hx))]

/-- `resolveTool` on a log whose prefix misses the key and whose last entry
carries it updates exactly that last entry. -/
theorem resolveTool_append_fresh (key : String) (suc : Option Bool)
    (out : Option String) (el : Option Nat) (ts : List ToolState) (t : ToolState)
    (h : ∀ u ∈ ts, u.id ≠ key) (ht : t.id = key) :
    resolveTool key suc out el (ts ++ [t]) =
      ts ++ [{ t with
        status := if suc.getD false then "success" else "error"
        output := out
        elapsed_ms := el }] := by
  induction ts with
  | nil => simp [resolveTool, ht]
  | cons u us ih =>
    have hu : u.id ≠ key := h u (List.mem_cons_self ..)
    simp only [List.cons_append, resolveTool, if_neg hu]
    exact congrArg (u :: ·) (ih (fun x hx => h x (List.mem_cons_of_mem _ hx)))

/-- One scroll key keeps `chat_scroll ≤ len(messages) - 1` (in saturating
`Nat` arithmetic this also forces `chat_scroll = 0` on an empty transcript)
and never touches the transcript itself. -/
theorem scrollKey_inv (s : AppState) (k : KeyAction) (hk : isScrollKey k = true)
    (h : s.chat_scroll ≤ s.messages.length - 1) :
    (handleKey s k).1.chat_scroll ≤ (handleKey s k).1.messages.length - 1
    ∧ (handleKey s k).1.messages = s.messages := by
  cases k with
  | up =>
    by_cases h0 : s.chat_scroll > 0 <;> simp [handleKey, h0] <;> omega
  | down =>
    by_cases h0 : s.chat_scroll < s.messages.length - 1 <;>
      simp [handleKey, h0] <;> try omega
  | pageUp => simp [handleKey]; omega
  | pageDown => simp [handleKey]
  | home => simp [handleKey]
  | endKey => simp [handleKey]
  | enter => simp [isScrollKey] at hk
  | char c => simp [isScrollKey] at hk
  | backspace => simp [isScrollKey] at hk
  | other => simp [isScrollKey] at hk

/-- Folding any sequence of scroll keys preserves the clamping invariant. -/
theorem scrollKeys_foldl_inv (ks : List KeyAction) (s : AppState)
    (hks : ∀ k ∈ ks, isScrollKey k = true)
    (h : s.chat_scroll ≤ s.messages.length - 1) :
    (ks.foldl (fun u k => (handleKey u k).1) s).chat_scroll
      ≤ (ks.foldl (fun u k => (handleKey u k).1) s).messages.length - 1 := by
  induction ks generalizing s with
  | nil => simpa using h
  | cons k ks ih =>
    simp only [List.foldl_cons]
    exact ih _ (fun x hx => hks x (List.mem_cons_of_mem _ hx))
      (scrollKey_inv s k (hks k (List.mem_cons_self ..)) h).1

/-! ### Claim theorems -/

/-- C2: on a non-empty turn (streaming buffer non-empty or tool log non-empty),
the `complete` event appends exactly one assistant `Message` whose content is
the streaming buffer and whose tools snapshot the tool log, clears both,
sets `chat_scroll` to the index of the newly appended last message, and sets
the phase to `"idle"`; every other field is unchanged. -/
theorem complete_nonempty_appends (now : Nat) (s : AppState)
    (h : (!s.current_stream.isEmpty || !s.tools.isEmpty) = true) :
    applyEvent now s .complete =
      { s with
        messages := s.messages ++ [⟨"assistant", s.current_stream, now, s.tools⟩]
        current_stream := ""
        tools := []
        stream_state := "idle"
        chat_scroll := s.messages.length } := by
  simp [applyEvent, h]

/-- Witness for C2 at a concrete state with streaming buffer `"hello"`. -/
theorem complete_nonempty_appends_witness :
    applyEvent 5 { initAppState with current_stream := "hello" } .complete =
      { initAppState with
        messages := [⟨"assistant", "hello", 5, []⟩]
        current_stream := ""
        stream_state := "idle"
        chat_scroll := 0 } := by
  have h := complete_nonempty_appends 5
    { initAppState with current_stream := "hello" } (by decide)
  simpa [initAppState] using h

/-- C5: when the streaming buffer and the tool log are both empty, the
`complete` event is a no-op: no message is appended, `chat_scroll` and the
phase (and the whole view-model) stay exactly as they were. -/
theorem complete_empty_noop (now : Nat) (s : AppState)
    (h1 : s.current_stream.isEmpty = true) (h2 : s.tools.isEmpty = true) :
    applyEvent now s .complete = s := by
  simp [applyEvent, h1, h2]

/-- Witness for C5 at the startup state. -/
theorem complete_empty_noop_witness :
    applyEvent 7 initAppState .complete = initAppState :=
  complete_empty_noop 7 initAppState (by decide) (by decide)

/-- C6: once `complete` has appended an assistant `Message`, a subsequent
`tool_result` event (any id, in particular one recorded in that message)
leaves the transcript — hence the `tools` field of every appended message —
unchanged: the completed message's tools are a frozen copy. -/
theorem complete_freezes_message_tools (n1 n2 : Nat) (s : AppState)
    (tid : Option String) (suc : Option Bool) (out : Option String)
    (el : Option Nat) :
    (applyEvent n2 (applyEvent n1 s .complete)
        (.toolResult tid suc out el)).messages
      = (applyEvent n1 s .complete).messages := by
  simp [applyEvent]

/-- C7: `AddUserMessage(content)` appends exactly one `user` `Message` with
that content, the current timestamp and an empty tool list, clears the
streaming buffer, and sets the phase to `"thinking"`; every other field is
unchanged. -/
theorem addUserMessage_effect (now : Nat) (s : AppState) (content : String) :
    applyMsg now s (.addUserMessage content) =
      { s with
        messages := s.messages ++ [⟨"user", content, now, []⟩]
        current_stream := ""
        stream_state := "thinking" } := rfl

/-- C10: `AddUserMessage` leaves the tool log untouched (only the streaming
buffer is cleared), and open `ToolState` entries from before the user message
are snapshotted into the next assistant `Message` produced by `complete`. -/
theorem addUserMessage_preserves_tool_log (n1 n2 : Nat) (s : AppState)
    (content : String) (h : s.tools.isEmpty = false) :
    (applyMsg n1 s (.addUserMessage content)).tools = s.tools
    ∧ (applyEvent n2 (applyMsg n1 s (.addUserMessage content))
          .complete).messages
        = (applyMsg n1 s (.addUserMessage content)).messages
            ++ [⟨"assistant", "", n2, s.tools⟩] := by
  refine ⟨rfl, ?_⟩
  simp [applyMsg, applyEvent, h]

/-- Witness for C10 at a concrete state with one running tool. -/
theorem addUserMessage_preserves_tool_log_witness :
    (applyMsg 1 { initAppState with
        tools := [⟨"x", "1", "running", none, none⟩] }
      (.addUserMessage "hi")).tools = [⟨"x", "1", "running", none, none⟩]
    ∧ (applyEvent 2 (applyMsg 1 { initAppState with
          tools := [⟨"x", "1", "running", none, none⟩] }
        (.addUserMessage "hi")) .complete).messages
      = (applyMsg 1 { initAppState with
          tools := [⟨"x", "1", "running", none, none⟩] }
        (.addUserMessage "hi")).messages
          ++ [⟨"assistant", "", 2, [⟨"x", "1", "running", none, none⟩]⟩] := by
  exact addUserMessage_preserves_tool_log 1 2
    { initAppState with tools := [⟨"x", "1", "running", none, none⟩] }
    "hi" (by decide)

/-- C8: a queued line whose JSON value does not decode as one of the five
control-message kinds is silently discarded: processing it leaves the
view-model completely unchanged. -/
theorem decode_failure_noop (now : Nat) (s : AppState) (j : Json)
    (h : decodeTuiMessage j = none) :
    processLineValue now s j = s := by
  simp [processLineValue, h]

/-- Witness for C8 on the undecodable object with type tag `"bogus"`. -/
theorem decode_failure_noop_witness :
    decodeTuiMessage (.obj [("type", .str "bogus")]) = none
    ∧ processLineValue 3 initAppState (.obj [("type", .str "bogus")])
        = initAppState :=
  ⟨by decide, decode_failure_noop 3 initAppState _ (by decide)⟩

/-- C9: draining a batch that contains a `Destroy` (terminate) message applies
the messages strictly in order up to `Destroy` and stops there; no message
after `Destroy` is ever applied, and the resulting view-model is exactly the
fold of the prefix before `Destroy`. -/
theorem destroy_stops_batch (now : Nat) (s : AppState)
    (pre post : List TuiMessage)
    (h : ∀ m ∈ pre, isDestroy m = false) :
    drainBatch now s (pre ++ .destroy :: post) = pre.foldl (applyMsg now) s := by
  induction pre generalizing s with
  | nil => simp [drainBatch, isDestroy]
  | cons m ms ih =>
    have hm : isDestroy m = false := h m (List.mem_cons_self ..)
    simp only [List.cons_append, drainBatch, hm, Bool.false_eq_true,
      if_false, List.foldl_cons]
    exact ih (applyMsg now s m) (fun x hx => h x (List.mem_cons_of_mem _ hx))

/-- Witness for C9: a batch `[addUserMessage "hi", destroy, updateState "x"]`
stops at `destroy`; the trailing `updateState` is never applied. -/
theorem destroy_stops_batch_witness :
    drainBatch 4 initAppState
        ([.addUserMessage "hi"] ++ .destroy :: [.updateState "x"])
      = [TuiMessage.addUserMessage "hi"].foldl (applyMsg 4) initAppState :=
  destroy_stops_batch 4 initAppState [.addUserMessage "hi"]
    [.updateState "x"] (by decide)

/-- C4: starting from any view-model satisfying the clamping bound
(`chat_scroll ≤ len(messages) - 1`, which on a non-empty transcript is exactly
`chat_scroll ∈ [0, len-1]` and on an empty one forces `chat_scroll = 0`),
every prefix of any sequence of up/down/page-up/page-down/home/end key
actions keeps the bound — `chat_scroll` never leaves `[0, len-1]` while the
transcript is non-empty; and immediately after any turn-completing `complete`
event `chat_scroll` equals `len(messages) - 1`. -/
theorem scroll_clamping (s : AppState) (ks : List KeyAction) (now : Nat)
    (t : AppState)
    (hks : ∀ k ∈ ks, isScrollKey k = true)
    (hinit : s.chat_scroll ≤ s.messages.length - 1)
    (ht : (!t.current_stream.isEmpty || !t.tools.isEmpty) = true) :
    (∀ p q, ks = p ++ q →
      (p.foldl (fun u k => (handleKey u k).1) s).chat_scroll
        ≤ (p.foldl (fun u k => (handleKey u k).1) s).messages.length - 1)
    ∧ (applyEvent now t .complete).chat_scroll
        = (applyEvent now t .complete).messages.length - 1 := by
  constructor
  · intro p q hpq
    exact scrollKeys_foldl_inv p s
      (fun x hx => hks x (hpq ▸ List.mem_append_left _ hx)) hinit
  · simp [applyEvent, ht]

/-- Witness for C4: two-message transcript, scroll at 1, keys
`[up, pageDown, end]`; the prefix `[up]` keeps the bound, and a `complete`
on a buffered state lands the scroll on the last message. -/
theorem scroll_clamping_witness :
    (([KeyAction.up].foldl (fun u k => (handleKey u k).1)
        { initAppState with
          messages := [⟨"user", "hi", 0, []⟩, ⟨"assistant", "yo", 1, []⟩]
          chat_scroll := 1 }).chat_scroll
      ≤ (([KeyAction.up].foldl (fun u k => (handleKey u k).1)
        { initAppState with
          messages := [⟨"user", "hi", 0, []⟩, ⟨"assistant", "yo", 1, []⟩]
          chat_scroll := 1 })).messages.length - 1)
    ∧ (applyEvent 9 { initAppState with current_stream := "x" }
          .complete).chat_scroll
        = (applyEvent 9 { initAppState with current_stream := "x" }
            .complete).messages.length - 1 := by
  have h := scroll_clamping
    { initAppState with
      messages := [⟨"user", "hi", 0, []⟩, ⟨"assistant", "yo", 1, []⟩]
      chat_scroll := 1 }
    [KeyAction.up, KeyAction.pageDown, KeyAction.endKey] 9
    { initAppState with current_stream := "x" }
    (by decide) (by decide) (by decide)
  exact ⟨h.1 [KeyAction.up] [KeyAction.pageDown, KeyAction.endKey] rfl, h.2⟩

/-- C3: pressing enter with input buffer `"test"` emits exactly one line,
`\x7b"type":"input","content":"test"\x7d`, on standard output and clears the
input buffer (nothing else changes); pressing enter with an empty input
buffer emits nothing and changes nothing. -/
theorem enter_submission (s t : AppState)
    (hs : s.input = "test") (ht : t.input = "") :
    handleKey s .enter = ({ s with input := "" }, [emitInputLine "test"])
    ∧ emitInputLine "test" = "\x7b\"type\":\"input\",\"content\":\"test\"\x7d"
    ∧ handleKey t .enter = (t, []) := by
  refine ⟨?_, by decide, ?_⟩
  · simp [handleKey, hs]
    decide
  · simp [handleKey, ht]
    decide

/-- Witness for C3 at concrete states with input `"test"` and `""`. -/
theorem enter_submission_witness :
    handleKey { initAppState with input := "test" } .enter
      = ({ initAppState with input := "" }, [emitInputLine "test"])
    ∧ emitInputLine "test" = "\x7b\"type\":\"input\",\"content\":\"test\"\x7d"
    ∧ handleKey initAppState .enter = (initAppState, []) := by
  have h := enter_submission { initAppState with input := "test" }
    initAppState rfl rfl
  simpa [initAppState] using h

/-- C1 counterexample: the claim asserts that after
`tool_call(name "x", id "1")` and `tool_result(id "1", success true,
output "ok", elapsed 42)`, a second `tool_result` with id `"1"` leaves the
`ToolState` unchanged (results for already-resolved ids ignored, only a
`running` entry updated).  On the code this is false: the `ToolResult` arm
matches on `id` only, so a second result with id `"1"` and a different
payload overwrites the already-resolved entry. -/
theorem tool_correlation_cex :
    (applyEvent 0 (applyEvent 0 (applyEvent 0 initAppState
          (.toolCall (some "x") (some "1")))
          (.toolResult (some "1") (some true) (some "ok") (some 42)))
        (.toolResult (some "1") (some false) (some "again") (some 7))).tools
      ≠ (applyEvent 0 (applyEvent 0 initAppState
          (.toolCall (some "x") (some "1")))
          (.toolResult (some "1") (some true) (some "ok") (some 42))).tools := by
  decide

/-- C1 (amended): on a view-model whose tool log has no entry with id `"1"`,
`tool_call(name "x", id "1")` followed by `tool_result(id "1", success true,
output "ok", elapsed 42)` leaves the appended `ToolState` with status
`success`, output `"ok"`, elapsed `42` (and clears `active_tool`).  A later
`tool_result` with id `"1"` is NOT ignored: it re-updates the first entry
with that id regardless of its status — re-applying the identical payload
leaves the state unchanged, a different payload overwrites status/output/
elapsed — while a result whose id matches no entry in the log is ignored. -/
theorem tool_correlation_amended (now : Nat) (s : AppState)
    (h : ∀ u ∈ s.tools, u.id ≠ "1") :
    applyEvent now (applyEvent now s (.toolCall (some "x") (some "1")))
        (.toolResult (some "1") (some true) (some "ok") (some 42))
      = { s with
          current_tool := none
          tools := s.tools ++ [⟨"x", "1", "success", some "ok", some 42⟩] }
    ∧ applyEvent now
        { s with
          current_tool := none
          tools := s.tools ++ [⟨"x", "1", "success", some "ok", some 42⟩] }
        (.toolResult (some "1") (some true) (some "ok") (some 42))
      = { s with
          current_tool := none
          tools := s.tools ++ [⟨"x", "1", "success", some "ok", some 42⟩] }
    ∧ (applyEvent now
        { s with
          current_tool := none
          tools := s.tools ++ [⟨"x", "1", "success", some "ok", some 42⟩] }
        (.toolResult (some "1") (some false) (some "again") (some 7))).tools
      = s.tools ++ [⟨"x", "1", "error", some "again", some 7⟩]
    ∧ ∀ (k : String) (a : Option Bool) (b : Option String) (c : Option Nat),
        (∀ u ∈ s.tools, u.id ≠ k) → k ≠ "1" →
        applyEvent now
          { s with
            current_tool := none
            tools := s.tools ++ [⟨"x", "1", "success", some "ok", some 42⟩] }
          (.toolResult (some k) a b c)
        = { s with
            current_tool := none
            tools := s.tools ++ [⟨"x", "1", "success", some "ok", some 42⟩] } := by
  have hfresh1 : resolveTool "1" (some true) (some "ok") (some 42)
      (s.tools ++ [⟨"x", "1", "running", none, none⟩])
      = s.tools ++ [⟨"x", "1", "success", some "ok", some 42⟩] := by
    rw [resolveTool_append_fresh "1" (some true) (some "ok") (some 42)
      s.tools ⟨"x", "1", "running", none, none⟩ h rfl]
    rfl
  refine ⟨?_, ?_, ?_, ?_⟩
  · simp [applyEvent, hfresh1]
  · have : resolveTool "1" (some true) (some "ok") (some 42)
        (s.tools ++ [⟨"x", "1", "success", some "ok", some 42⟩])
        = s.tools ++ [⟨"x", "1", "success", some "ok", some 42⟩] := by
      rw [resolveTool_append_fresh "1" (some true) (some "ok") (some 42)
        s.tools ⟨"x", "1", "success", some "ok", some 42⟩ h rfl]
      rfl
    simp [applyEvent, this]
  · have : resolveTool "1" (some false) (some "again") (some 7)
        (s.tools ++ [⟨"x", "1", "success", some "ok", some 42⟩])
        = s.tools ++ [⟨"x", "1", "error", some "again", some 7⟩] := by
      rw [resolveTool_append_fresh "1" (some false) (some "again") (some 7)
        s.tools ⟨"x", "1", "success", some "ok", some 42⟩ h rfl]
      rfl
    simp [applyEvent, this]
  · intro k a b c hk hk1
    have : resolveTool k a b c
        (s.tools ++ [⟨"x", "1", "success", some "ok", some 42⟩])
        = s.tools ++ [⟨"x", "1", "success", some "ok", some 42⟩] := by
      refine resolveTool_no_match k a b c _ ?_
      intro u hu
      rcases List.mem_append.mp hu with h1 | h1
      · exact hk u h1
      · rcases List.mem_singleton.mp h1 with rfl
        simpa using fun e => hk1 e.symm
    simp [applyEvent, this]

/-- Witness for C1's amended theorem at the startup state (empty tool log),
checking the first-result conjunct and the ignored-unknown-id conjunct. -/
theorem tool_correlation_amended_witness :
    applyEvent 0 (applyEvent 0 initAppState (.toolCall (some "x") (some "1")))
        (.toolResult (some "1") (some true) (some "ok") (some 42))
      = { initAppState with
          current_tool := none
          tools := [⟨"x", "1", "success", some "ok", some 42⟩] }
    ∧ applyEvent 0
        { initAppState with
          current_tool := none
          tools := [⟨"x", "1", "success", some "ok", some 42⟩] }
        (.toolResult (some "9") none none none)
      = { initAppState with
          current_tool := none
          tools := [⟨"x", "1", "success", some "ok", some 42⟩] } := by
  have h := tool_correlation_amended 0 initAppState (by decide)
  refine ⟨by simpa [initAppState] using h.1, ?_⟩
  have h4 := h.2.2.2 "9" none none none (by decide) (by decide)
  simpa [initAppState] using h4

end DaxTui
